import Mathlib

/-!
Shallow embedding of the model persistence layer
(`app/services/model_storage.py`) together with the request/response
computation functions `generate_sample_data`
(`app/services/sample_data_generator.py`) and
`MLPredictor.predict_with_saved_model` (`app/services/ml_predictor.py`).

File-system effects are explicit: `StorageState` carries the parsed content
of the registry document `models.json` and the artifact files on disk.
I/O failures are injected through a `Faults` record; a failing write is
modelled as the `open` call failing, leaving the previous file content in
place.  `uuid.uuid4()` and `datetime.now().isoformat()` are modelled as
explicit oracle inputs to `save_model`.
-/

set_option linter.unusedVariables false

/-- One entry of the registry document, mirroring the `model_metadata`
dictionary built in `ModelStorage.save_model`. -/
structure ModelRecord where
  model_id : String
  created_at : String
  model_type : String
  algorithm : String
  data_shape : Option (Nat × Nat)
  features : List String
  target_variable : Option String
  performance : List (String × Rat)
  training_history : List (String × String)
  model_summary : List (String × String)
  hyperparameters : List (String × String)
  training_data_hash : String
  file_path : String
  deriving DecidableEq, Repr

/-- The caller-supplied `metadata` dictionary of `save_model`; `none` stands
for an absent key, so that the `dict.get` defaults of the source apply. -/
structure Metadata where
  model_type : Option String := none
  algorithm : Option String := none
  data_shape : Option (Nat × Nat) := none
  features : Option (List String) := none
  target_variable : Option String := none
  performance : Option (List (String × Rat)) := none
  training_history : Option (List (String × String)) := none
  model_summary : Option (List (String × String)) := none
  hyperparameters : Option (List (String × String)) := none
  training_data : Option (List String) := none
  deriving Repr

/-- On-disk content of the registry document `models.json`: a JSON array that
parses into records, a file whose content fails to parse
(`json.JSONDecodeError`), or a missing file (`FileNotFoundError`). -/
inductive RegistryDoc where
  | parsed (models : List ModelRecord)
  | corrupt
  | missing
  deriving DecidableEq, Repr

/-- Explicit file-system state: the registry document plus the artifact
files.  An artifact file is a path paired with `some a` (a readable pickled
object) or `none` (a file that is present but unreadable). -/
structure StorageState (α : Type) where
  doc : RegistryDoc
  files : List (String × Option α)

/-- Fault-injection flags for the file-system operations performed by
`save_model` and `delete_model`. -/
structure Faults where
  artifactWriteFails : Bool := false
  artifactRemoveFails : Bool := false
  registryWriteFails : Bool := false
  deriving DecidableEq, Repr

def noFaults : Faults := {}

/-- Paths of the files present on disk. -/
def filePaths {α : Type} (files : List (String × Option α)) : List String :=
  files.map Prod.fst

/-- `ModelStorage.load_model_registry`: `json.load` on the registry document;
`FileNotFoundError` and `json.JSONDecodeError` are caught and coerced to the
empty list. -/
def load_model_registry : RegistryDoc → List ModelRecord
  | .parsed models => models
  | .corrupt => []
  | .missing => []

/-- `ModelStorage._hash_data`: empty input hashes to the empty-string
sentinel.  The MD5 hex digest of the canonicalised JSON is abstracted by an
injective string encoding; no claim depends on digest values. -/
def hash_data (data : List String) : String :=
  if data.isEmpty then "" else "md5:" ++ String.intercalate "," data

/-- The `model_metadata` dictionary built by `save_model` from the supplied
metadata, the generated id, and the creation timestamp. -/
def saveRecord (storage_dir : String) (metadata : Metadata)
    (model_id created_at : String) : ModelRecord :=
  { model_id := model_id
    created_at := created_at
    model_type := metadata.model_type.getD "Unknown"
    algorithm := metadata.algorithm.getD "Unknown"
    data_shape := metadata.data_shape
    features := metadata.features.getD []
    target_variable := metadata.target_variable
    performance := metadata.performance.getD []
    training_history := metadata.training_history.getD []
    model_summary := metadata.model_summary.getD []
    hyperparameters := metadata.hyperparameters.getD []
    training_data_hash := hash_data (metadata.training_data.getD [])
    file_path := storage_dir ++ "/" ++ model_id ++ ".pkl" }

/-- `ModelStorage.save_model`.  `model_id` stands for the fresh
`uuid.uuid4()` draw and `created_at` for `datetime.now().isoformat()`.
Returns the Python return value (or the raised exception message) together
with the resulting file-system state: the artifact is pickled first, then
the registry document is reread, the record appended, and the document
rewritten wholesale; any exception is reraised as `Failed to save model`. -/
def save_model {α : Type} (storage_dir : String) (f : Faults) (model : α)
    (metadata : Metadata) (model_id created_at : String)
    (s : StorageState α) : Except String String × StorageState α :=
  let record : ModelRecord := saveRecord storage_dir metadata model_id created_at
  if f.artifactWriteFails then
    (.error "Failed to save model: artifact write failed", s)
  else
    let s1 : StorageState α :=
      { s with files := (record.file_path, some model) ::
          s.files.filter (fun kv => kv.1 != record.file_path) }
    let models := load_model_registry s1.doc ++ [record]
    if f.registryWriteFails then
      (.error "Failed to save model: registry write failed", s1)
    else
      (.ok model_id, { s1 with doc := .parsed models })

/-- `ModelStorage.load_model`: look the record up by id (first match), then
unpickle the file at the record's `file_path`; a missing or unreadable file
raises `Failed to load model`. -/
def load_model {α : Type} (model_id : String) (s : StorageState α) :
    Except String α :=
  match (load_model_registry s.doc).find? (fun m => m.model_id == model_id) with
  | none => .error ("Model with ID " ++ model_id ++ " not found")
  | some md =>
    match s.files.find? (fun kv => kv.1 == md.file_path) with
    | some (_, some a) => .ok a
    | _ => .error ("Failed to load model " ++ model_id)

/-- `ModelStorage.get_model_metadata`: pure lookup returning `none` when the
id is absent. -/
def get_model_metadata {α : Type} (model_id : String) (s : StorageState α) :
    Option ModelRecord :=
  (load_model_registry s.doc).find? (fun m => m.model_id == model_id)

/-- Python `str.lower` (ASCII-faithful rendering), written over the character
list so that it evaluates by kernel reduction. -/
def pyLower (s : String) : String := String.mk (s.data.map Char.toLower)

/-- The sort key order used by `list_models`: `a` before `b` when `b` is not
newer, i.e. descending `created_at`. -/
def newestFirst (a b : ModelRecord) : Prop := b.created_at ≤ a.created_at

instance : DecidableRel newestFirst :=
  fun a b => inferInstanceAs (Decidable (b.created_at ≤ a.created_at))

instance : IsTotal ModelRecord newestFirst :=
  ⟨fun a b => le_total b.created_at a.created_at⟩

instance : IsTrans ModelRecord newestFirst :=
  ⟨fun _ _ _ h1 h2 => le_trans h2 h1⟩

/-- Python's stable `models.sort(key=lambda x: x["created_at"],
reverse=True)`, rendered extensionally as a stable insertion sort for the
descending order. -/
def pySortDesc (models : List ModelRecord) : List ModelRecord :=
  models.insertionSort newestFirst

/-- `ModelStorage.list_models`.  `if model_type:` is Python truthiness: the
filter is skipped both for `None` and for the empty string. -/
def list_models {α : Type} (model_type : Option String) (s : StorageState α) :
    List ModelRecord :=
  let models := load_model_registry s.doc
  let models :=
    match model_type with
    | some fil =>
      if fil ≠ "" then
        models.filter (fun m => pyLower m.model_type == pyLower fil)
      else models
    | none => models
  pySortDesc models

/-- `ModelStorage.delete_model`: look the record up (returning `false` when
absent), delete the artifact file if it exists, filter the record out of the
registry and rewrite the document; any exception in that block is caught and
converted to `false`. -/
def delete_model {α : Type} (f : Faults) (model_id : String)
    (s : StorageState α) : Bool × StorageState α :=
  let models := load_model_registry s.doc
  match models.find? (fun m => m.model_id == model_id) with
  | none => (false, s)
  | some md =>
    if md.file_path ∈ filePaths s.files then
      if f.artifactRemoveFails then (false, s)
      else
        let s1 : StorageState α :=
          { s with files := s.files.filter (fun kv => kv.1 != md.file_path) }
        if f.registryWriteFails then (false, s1)
        else
          (true, { s1 with
            doc := .parsed (models.filter (fun m => m.model_id != model_id)) })
    else
      if f.registryWriteFails then (false, s)
      else
        (true, { s with
          doc := .parsed (models.filter (fun m => m.model_id != model_id)) })

/-- Registry/file-system consistency: every registry record's artifact file
exists on disk (no dangling references). -/
def noDanglingRefs {α : Type} (s : StorageState α) : Prop :=
  ∀ r ∈ load_model_registry s.doc, r.file_path ∈ filePaths s.files

/-- The converse direction: every artifact file on disk is referenced by some
registry record (no orphaned artifacts). -/
def noOrphanFiles {α : Type} (s : StorageState α) : Prop :=
  ∀ kv ∈ s.files, ∃ r ∈ load_model_registry s.doc, r.file_path = kv.1

/-- One `save_model` call of a sequence: the artifact, the metadata, and the
oracle draws for `uuid.uuid4()` and `datetime.now().isoformat()`. -/
structure SaveCall (α : Type) where
  model : α
  metadata : Metadata
  model_id : String
  created_at : String

/-- A fault-free sequence of `save_model` calls against the same registry,
collecting the returned ids. -/
def saveSeq {α : Type} (storage_dir : String) :
    List (SaveCall α) → StorageState α → List String × StorageState α
  | [], s => ([], s)
  | c :: cs, s =>
    match save_model storage_dir noFaults c.model c.metadata c.model_id
        c.created_at s with
    | (.ok i, s1) =>
      let rest := saveSeq storage_dir cs s1
      (i :: rest.1, rest.2)
    | (.error _, s1) =>
      let rest := saveSeq storage_dir cs s1
      (rest.1, rest.2)

/-! ### Helper lemmas -/

/-- Records filtered out by id can no longer be found by that id. -/
theorem find?_filter_model_id_ne (models : List ModelRecord) (mid : String) :
    (models.filter (fun m => m.model_id != mid)).find?
      (fun m => m.model_id == mid) = none := by
  rw [List.find?_eq_none]
  intro x hx
  have h2 := (List.mem_filter.mp hx).2
  simp only [bne_iff_ne, ne_eq] at h2
  simp [h2]

/-- `find?` skips a prefix on which the predicate fails everywhere. -/
theorem find?_append_of_forall_neg {β : Type} (p : β → Bool) (l1 l2 : List β)
    (h : ∀ x ∈ l1, ¬ p x = true) : (l1 ++ l2).find? p = l2.find? p := by
  induction l1 with
  | nil => rfl
  | cons a l ih =>
    rw [List.cons_append, List.find?_cons_of_neg _ (h a (by simp)),
      ih (fun x hx => h x (by simp [hx]))]

/-- Writing a file keeps every previously present path present. -/
theorem mem_filePaths_after_write {α : Type} (files : List (String × Option α))
    (path : String) (a : Option α) (p : String) (hp : p ∈ filePaths files) :
    p ∈ filePaths ((path, a) :: files.filter (fun kv => kv.1 != path)) := by
  by_cases hpp : p = path
  · simp [filePaths, hpp]
  · simp only [filePaths, List.mem_map] at hp ⊢
    obtain ⟨kv, hkv, hkv1⟩ := hp
    exact ⟨kv, by simp [List.mem_filter, hkv, bne_iff_ne, hkv1, hpp], hkv1⟩

/-! ### C3 — corrupt registry document -/

/-- C3 counterexample: a registry document whose contents fail to deserialize
is not surfaced as an error.  `load_model_registry` silently coerces the
corrupt document to the empty list, and `list_models` on a corrupt document
returns exactly the same value as on a valid empty registry; no operation has
an error channel for this case. -/
theorem c3_corrupt_doc_counterexample :
    load_model_registry RegistryDoc.corrupt = [] ∧
    list_models none
        (StorageState.mk RegistryDoc.corrupt ([] : List (String × Option Unit))) =
      list_models none
        (StorageState.mk (RegistryDoc.parsed []) ([] : List (String × Option Unit))) :=
  ⟨rfl, rfl⟩

/-- C3 (amended): a registry document that fails to deserialize (or is
missing) is silently coerced to the empty registry: `load_model_registry`
returns `[]`, and the reading operations return the same values as on an
empty registry, surfacing no error to the caller. -/
theorem c3_corrupt_doc_coerced_to_empty :
    load_model_registry RegistryDoc.corrupt = [] ∧
    load_model_registry RegistryDoc.missing = [] ∧
    (∀ (mid : String) (files : List (String × Option Unit)),
      get_model_metadata mid (StorageState.mk RegistryDoc.corrupt files) = none) ∧
    (∀ (fil : Option String) (files : List (String × Option Unit)),
      list_models fil (StorageState.mk RegistryDoc.corrupt files) = []) := by
  refine ⟨rfl, rfl, fun mid files => rfl, fun fil files => ?_⟩
  cases fil with
  | none => rfl
  | some f =>
    by_cases hf : f = "" <;>
      simp [list_models, load_model_registry, pySortDesc, hf, List.insertionSort]

/-! ### C7 — list ordering -/

/-- C7: `list_models` with no filter returns all records of the registry
(as a permutation), ordered newest first by `created_at` descending; in
particular three records with strictly increasing timestamps t1 < t2 < t3
come back in the order [t3, t2, t1]. -/
theorem c7_list_sorted_newest_first {α : Type} (s : StorageState α) :
    (list_models none s).Perm (load_model_registry s.doc) ∧
    List.Sorted newestFirst (list_models none s) ∧
    (∀ r1 r2 r3 : ModelRecord,
      load_model_registry s.doc = [r1, r2, r3] →
      r1.created_at < r2.created_at → r2.created_at < r3.created_at →
      list_models none s = [r3, r2, r1]) := by
  refine ⟨List.perm_insertionSort _ _, List.sorted_insertionSort _ _,
    fun r1 r2 r3 h h12 h23 => ?_⟩
  have h13 : r1.created_at < r3.created_at := lt_trans h12 h23
  show pySortDesc (load_model_registry s.doc) = [r3, r2, r1]
  rw [h]
  simp [pySortDesc, List.insertionSort, List.orderedInsert, newestFirst,
    not_le.mpr h12, not_le.mpr h23, not_le.mpr h13]

/-- Concrete record used by witnesses and counterexamples, echoing the
spec's concrete scenario (a "Linear Regression" record). -/
def mkRec (i t : String) : ModelRecord :=
  { model_id := i
    created_at := t
    model_type := "Linear Regression"
    algorithm := "scikit-learn"
    data_shape := none
    features := ["a", "b"]
    target_variable := some "target"
    performance := [("test_r2", (1 : Rat))]
    training_history := []
    model_summary := []
    hyperparameters := []
    training_data_hash := ""
    file_path := "./models/" ++ i ++ ".pkl" }

/-- C7 witness: three concrete records with increasing timestamps come back
newest first. -/
theorem c7_list_sorted_newest_first_witness :
    list_models none
        (StorageState.mk
          (RegistryDoc.parsed
            [mkRec "a" "2024-01-01T00:00:00", mkRec "b" "2024-01-02T00:00:00",
             mkRec "c" "2024-01-03T00:00:00"])
          ([] : List (String × Option Unit)))
      = [mkRec "c" "2024-01-03T00:00:00", mkRec "b" "2024-01-02T00:00:00",
         mkRec "a" "2024-01-01T00:00:00"] :=
  (c7_list_sorted_newest_first _).2.2 _ _ _ rfl
    (by rw [String.lt_iff_toList_lt]; decide)
    (by rw [String.lt_iff_toList_lt]; decide)

/-- Unfolding lemma: `delete_model` when the id is found. -/
theorem delete_model_found {α : Type} (f : Faults) (mid : String)
    (s : StorageState α) (md : ModelRecord)
    (hmd : (load_model_registry s.doc).find? (fun m => m.model_id == mid) = some md) :
    delete_model f mid s =
      (if md.file_path ∈ filePaths s.files then
        if f.artifactRemoveFails then (false, s)
        else if f.registryWriteFails then
          (false, ⟨s.doc, s.files.filter (fun kv => kv.1 != md.file_path)⟩)
        else
          (true,
            ⟨.parsed ((load_model_registry s.doc).filter (fun m => m.model_id != mid)),
             s.files.filter (fun kv => kv.1 != md.file_path)⟩)
      else
        if f.registryWriteFails then (false, s)
        else
          (true,
            ⟨.parsed ((load_model_registry s.doc).filter (fun m => m.model_id != mid)),
             s.files⟩)) := by
  simp only [delete_model]
  rw [hmd]

/-- Unfolding lemma: `delete_model` when the id is absent. -/
theorem delete_model_not_found {α : Type} (f : Faults) (mid : String)
    (s : StorageState α)
    (hmd : (load_model_registry s.doc).find? (fun m => m.model_id == mid) = none) :
    delete_model f mid s = (false, s) := by
  simp only [delete_model]
  rw [hmd]

/-- A registry from which every record carrying `mid` has been filtered out
no longer finds `mid`: `delete_model` returns `false` and leaves the state
unchanged. -/
theorem delete_model_filtered {α : Type} (f : Faults) (mid : String)
    (ms : List ModelRecord) (fl : List (String × Option α)) :
    delete_model f mid ⟨.parsed (ms.filter (fun m => m.model_id != mid)), fl⟩ =
      (false, ⟨.parsed (ms.filter (fun m => m.model_id != mid)), fl⟩) :=
  delete_model_not_found f mid _
    (by simp only [load_model_registry, find?_filter_model_id_ne])

/-- `get_model_metadata` on such a filtered registry returns `none`. -/
theorem get_metadata_filtered {α : Type} (mid : String)
    (ms : List ModelRecord) (fl : List (String × Option α)) :
    get_model_metadata mid
      (⟨.parsed (ms.filter (fun m => m.model_id != mid)), fl⟩ : StorageState α) = none := by
  simp only [get_model_metadata, load_model_registry, find?_filter_model_id_ne]

/-! ### C6 — idempotent delete -/

/-- C6: for an id present in the registry, a fault-free `delete_model`
returns `true`, a second delete of the same id returns `false`, and
`get_model_metadata` returns `none` after the first delete; deleting an
unknown id returns `false` (leaving the state unchanged) without raising. -/
theorem c6_idempotent_delete {α : Type} (s : StorageState α) (mid : String) :
    ((∃ r ∈ load_model_registry s.doc, r.model_id = mid) →
      (delete_model noFaults mid s).1 = true ∧
      (delete_model noFaults mid (delete_model noFaults mid s).2).1 = false ∧
      get_model_metadata mid (delete_model noFaults mid s).2 = none) ∧
    ((¬ ∃ r ∈ load_model_registry s.doc, r.model_id = mid) →
      delete_model noFaults mid s = (false, s)) := by
  constructor
  · intro hex
    have hsome : ((load_model_registry s.doc).find?
        (fun m => m.model_id == mid)).isSome := by
      rw [List.find?_isSome]
      obtain ⟨r, hr, hrid⟩ := hex
      exact ⟨r, hr, by simp [hrid]⟩
    obtain ⟨md, hmd⟩ := Option.isSome_iff_exists.mp hsome
    rw [delete_model_found noFaults mid s md hmd]
    by_cases hc : md.file_path ∈ filePaths s.files
    · rw [if_pos hc]
      exact ⟨rfl, congrArg Prod.fst (delete_model_filtered _ _ _ _),
        get_metadata_filtered _ _ _⟩
    · rw [if_neg hc]
      exact ⟨rfl, congrArg Prod.fst (delete_model_filtered _ _ _ _),
        get_metadata_filtered _ _ _⟩
  · intro hnone
    refine delete_model_not_found noFaults mid s ?_
    rw [List.find?_eq_none]
    intro x hx hpx
    exact hnone ⟨x, hx, by simpa using hpx⟩

/-- C6 witness at a concrete one-record registry. -/
theorem c6_idempotent_delete_witness :
    (delete_model noFaults "a"
        (StorageState.mk (RegistryDoc.parsed [mkRec "a" "2024-01-01T00:00:00"])
          ([("./models/a.pkl", some ())] : List (String × Option Unit)))).1 = true ∧
    (delete_model noFaults "a"
        (delete_model noFaults "a"
          (StorageState.mk (RegistryDoc.parsed [mkRec "a" "2024-01-01T00:00:00"])
            ([("./models/a.pkl", some ())] : List (String × Option Unit)))).2).1 = false ∧
    get_model_metadata "a"
        (delete_model noFaults "a"
          (StorageState.mk (RegistryDoc.parsed [mkRec "a" "2024-01-01T00:00:00"])
            ([("./models/a.pkl", some ())] : List (String × Option Unit)))).2 = none :=
  (c6_idempotent_delete _ _).1
    ⟨mkRec "a" "2024-01-01T00:00:00", by simp [load_model_registry], rfl⟩

/-! ### C10 — delete converts I/O failure to false -/

/-- C10: `delete_model` is total and returns a boolean rather than raising: a
failing registry-document rewrite always yields `false`, and a failing
artifact-file removal (for a file that exists) also yields `false` — to the
caller these are indistinguishable from the id not being found. -/
theorem c10_delete_false_on_io_failure {α : Type} (s : StorageState α)
    (mid : String) (f : Faults) :
    (f.registryWriteFails = true → (delete_model f mid s).1 = false) ∧
    (∀ md, (load_model_registry s.doc).find? (fun m => m.model_id == mid) = some md →
      md.file_path ∈ filePaths s.files →
      f.artifactRemoveFails = true →
      (delete_model f mid s).1 = false) := by
  constructor
  · intro hrw
    cases hmd : (load_model_registry s.doc).find? (fun m => m.model_id == mid) with
    | none => rw [delete_model_not_found f mid s hmd]
    | some md =>
      rw [delete_model_found f mid s md hmd]
      by_cases hc : md.file_path ∈ filePaths s.files <;>
        by_cases ha : f.artifactRemoveFails <;>
          simp [hc, ha, hrw]
  · intro md hmd hc ha
    rw [delete_model_found f mid s md hmd]
    simp [hc, ha]

/-- C10 witness: a registry-rewrite failure at a concrete state yields
`false`, and so does an artifact-removal failure. -/
theorem c10_delete_false_on_io_failure_witness :
    (delete_model { registryWriteFails := true } "a"
        (StorageState.mk (RegistryDoc.parsed [mkRec "a" "2024-01-01T00:00:00"])
          ([("./models/a.pkl", some ())] : List (String × Option Unit)))).1 = false ∧
    (delete_model { artifactRemoveFails := true } "a"
        (StorageState.mk (RegistryDoc.parsed [mkRec "a" "2024-01-01T00:00:00"])
          ([("./models/a.pkl", some ())] : List (String × Option Unit)))).1 = false :=
  ⟨(c10_delete_false_on_io_failure _ _ _).1 rfl,
   (c10_delete_false_on_io_failure _ _ _).2 (mkRec "a" "2024-01-01T00:00:00")
     (by decide) (by decide) rfl⟩

/-! ### C1 — a partial delete leaves a dangling reference, not an orphan -/

/-- Removing a path from the file list removes it from the paths on disk. -/
theorem not_mem_filePaths_filter {α : Type} (fl : List (String × Option α))
    (p : String) : p ∉ filePaths (fl.filter (fun kv => kv.1 != p)) := by
  intro hmem
  simp only [filePaths, List.mem_map] at hmem
  obtain ⟨kv, hkv, hkv1⟩ := hmem
  have hne := (List.mem_filter.mp hkv).2
  rw [bne_iff_ne] at hne
  exact hne hkv1

def rec1 : ModelRecord := mkRec "m1" "2024-01-01T00:00:00"

def st1 : StorageState Unit :=
  { doc := .parsed [rec1], files := [("./models/m1.pkl", some ())] }

def faultRW : Faults := { registryWriteFails := true }

/-- C1 counterexample: on a one-record registry whose artifact file exists,
a delete whose registry-document rewrite fails removes the artifact file
first and then leaves the record in the registry document — the resulting
on-disk state contains a registry record whose artifact file does not exist,
i.e. exactly the dangling reference the claim rules out. -/
theorem c1_partial_delete_dangling_counterexample :
    (delete_model faultRW "m1" st1).1 = false ∧
    rec1 ∈ load_model_registry (delete_model faultRW "m1" st1).2.doc ∧
    rec1.file_path ∉ filePaths (delete_model faultRW "m1" st1).2.files := by
  decide

/-- C1 (amended): the ordering in the code is artifact removal first, then
registry rewrite, so a partially completed delete (registry rewrite failing
after the artifact file has been removed) leaves a dangling registry
reference; what it never produces is an orphaned artifact file — assuming
unique ids and no pre-existing orphans, every file still on disk after any
fault outcome of `delete_model` is referenced by a registry record. -/
theorem c1_delete_preserves_no_orphans {α : Type} (s : StorageState α)
    (f : Faults) (mid : String)
    (huniq : (load_model_registry s.doc).Pairwise (fun a b => a.model_id ≠ b.model_id))
    (horph : noOrphanFiles s) :
    noOrphanFiles (delete_model f mid s).2 ∧
    (∀ md, (load_model_registry s.doc).find? (fun m => m.model_id == mid) = some md →
      md.file_path ∈ filePaths s.files →
      f.artifactRemoveFails = false → f.registryWriteFails = true →
      md ∈ load_model_registry (delete_model f mid s).2.doc ∧
      md.file_path ∉ filePaths (delete_model f mid s).2.files) := by
  have hsymm : Symmetric (fun a b : ModelRecord => a.model_id ≠ b.model_id) :=
    fun a b h => Ne.symm h
  constructor
  · cases hmdOpt : (load_model_registry s.doc).find? (fun m => m.model_id == mid) with
    | none =>
      rw [delete_model_not_found f mid s hmdOpt]
      exact horph
    | some md =>
      have hmdmem : md ∈ load_model_registry s.doc :=
        List.mem_of_find?_eq_some hmdOpt
      have hmdid : md.model_id = mid := by
        simpa using List.find?_some hmdOpt
      rw [delete_model_found f mid s md hmdOpt]
      by_cases hc : md.file_path ∈ filePaths s.files
      · rw [if_pos hc]
        cases ha : f.artifactRemoveFails with
        | true => exact horph
        | false =>
          cases hr : f.registryWriteFails with
          | true =>
            intro kv hkv
            exact horph kv (List.mem_of_mem_filter hkv)
          | false =>
            intro kv hkv
            have hkvs : kv ∈ s.files := List.mem_of_mem_filter hkv
            have hkv1 : kv.1 ≠ md.file_path := by
              have h2 := (List.mem_filter.mp hkv).2
              rwa [bne_iff_ne] at h2
            obtain ⟨r, hrm, hrp⟩ := horph kv hkvs
            refine ⟨r, List.mem_filter.mpr ⟨hrm, ?_⟩, hrp⟩
            rw [bne_iff_ne]
            intro hrid
            by_cases hrmd : r = md
            · rw [hrmd] at hrp
              exact hkv1 hrp.symm
            · exact (List.Pairwise.forall hsymm huniq) hrm hmdmem hrmd
                (hrid.trans hmdid.symm)
      · rw [if_neg hc]
        cases hr : f.registryWriteFails with
        | true => exact horph
        | false =>
          intro kv hkv
          obtain ⟨r, hrm, hrp⟩ := horph kv hkv
          refine ⟨r, List.mem_filter.mpr ⟨hrm, ?_⟩, hrp⟩
          rw [bne_iff_ne]
          intro hrid
          by_cases hrmd : r = md
          · exact hc (hrmd ▸ hrp ▸ List.mem_map_of_mem Prod.fst hkv)
          · exact (List.Pairwise.forall hsymm huniq) hrm hmdmem hrmd
              (hrid.trans hmdid.symm)
  · intro md hmd hc ha hr
    rw [delete_model_found f mid s md hmd, if_pos hc, ha, hr]
    exact ⟨List.mem_of_find?_eq_some hmd, not_mem_filePaths_filter _ _⟩

/-- C1 amended-claim witness at the concrete interrupted delete. -/
theorem c1_delete_preserves_no_orphans_witness :
    noOrphanFiles (delete_model faultRW "m1" st1).2 ∧
    (rec1 ∈ load_model_registry (delete_model faultRW "m1" st1).2.doc ∧
     rec1.file_path ∉ filePaths (delete_model faultRW "m1" st1).2.files) :=
  ⟨(c1_delete_preserves_no_orphans st1 faultRW "m1"
      (by unfold st1; simp [load_model_registry])
      (by unfold noOrphanFiles; decide)).1,
   (c1_delete_preserves_no_orphans st1 faultRW "m1"
      (by unfold st1; simp [load_model_registry])
      (by unfold noOrphanFiles; decide)).2 rec1 (by decide) (by decide) rfl rfl⟩

/-! ### C2 — save writes the artifact first and never dangles -/

/-- C2: in every outcome of `save_model` — success, artifact-write failure,
or registry-write failure — the registry never gains a record pointing at a
nonexistent artifact; moreover when the artifact write fails the call raises
(`Failed to save model`) and the registry document is untouched, i.e. no
record is appended. -/
theorem c2_save_no_dangling {α : Type} (storage_dir : String) (f : Faults)
    (model : α) (m0 : Metadata) (mid ts : String) (s : StorageState α)
    (hnd : noDanglingRefs s) :
    noDanglingRefs (save_model storage_dir f model m0 mid ts s).2 ∧
    (f.artifactWriteFails = true →
      (∃ e, (save_model storage_dir f model m0 mid ts s).1 = .error e) ∧
      (save_model storage_dir f model m0 mid ts s).2 = s) := by
  simp only [save_model]
  cases hw : f.artifactWriteFails with
  | true => exact ⟨hnd, fun _ => ⟨⟨_, rfl⟩, rfl⟩⟩
  | false =>
    cases hr : f.registryWriteFails with
    | true =>
      refine ⟨?_, by simp⟩
      intro r hrmem
      exact mem_filePaths_after_write _ _ _ _ (hnd r hrmem)
    | false =>
      refine ⟨?_, by simp⟩
      intro r hrmem
      simp only [load_model_registry] at hrmem
      rcases List.mem_append.mp hrmem with h | h
      · exact mem_filePaths_after_write _ _ _ _ (hnd r h)
      · rw [List.mem_singleton.mp h]
        exact List.mem_map_of_mem Prod.fst (List.mem_cons_self _ _)

/-- C2 witness: artifact-write failure on an empty registry raises and
leaves the state unchanged, and no dangling reference exists afterwards. -/
theorem c2_save_no_dangling_witness :
    noDanglingRefs (save_model "./models" { artifactWriteFails := true } ()
        {} "w2" "2024-01-01T00:00:00"
        (StorageState.mk (RegistryDoc.parsed []) [])).2 ∧
    ((∃ e, (save_model "./models" { artifactWriteFails := true } ()
        {} "w2" "2024-01-01T00:00:00"
        (StorageState.mk (RegistryDoc.parsed []) [])).1 = .error e) ∧
      (save_model "./models" { artifactWriteFails := true } ()
        {} "w2" "2024-01-01T00:00:00"
        (StorageState.mk (RegistryDoc.parsed []) [])).2 =
        StorageState.mk (RegistryDoc.parsed []) []) :=
  have h := c2_save_no_dangling "./models" { artifactWriteFails := true } ()
    {} "w2" "2024-01-01T00:00:00" (StorageState.mk (RegistryDoc.parsed []) [])
    (fun r hr => absurd hr (List.not_mem_nil r))
  ⟨h.1, h.2 rfl⟩

/-! ### C4 — save/load round trip -/

/-- C4: a fault-free `save_model` with a fresh id returns that id, and
`load_model` on the resulting state returns exactly the saved artifact — the
round trip through the pickle file and the registry document is the
identity on the artifact. -/
theorem c4_save_load_round_trip {α : Type} (storage_dir : String) (model : α)
    (m0 : Metadata) (mid ts : String) (s : StorageState α)
    (hfresh : ∀ r ∈ load_model_registry s.doc, r.model_id ≠ mid) :
    (save_model storage_dir noFaults model m0 mid ts s).1 = .ok mid ∧
    load_model mid (save_model storage_dir noFaults model m0 mid ts s).2 = .ok model := by
  have hs : save_model storage_dir noFaults model m0 mid ts s =
      (.ok mid,
        ⟨.parsed (load_model_registry s.doc ++ [saveRecord storage_dir m0 mid ts]),
         ((saveRecord storage_dir m0 mid ts).file_path, some model) ::
           s.files.filter
             (fun kv => kv.1 != (saveRecord storage_dir m0 mid ts).file_path)⟩) := rfl
  refine ⟨by rw [hs], ?_⟩
  rw [hs]
  simp only [load_model, load_model_registry]
  rw [find?_append_of_forall_neg _ _ _
    (fun x hx => by simpa using hfresh x hx)]
  simp [List.find?_cons_of_pos, saveRecord]

/-- C4 witness at a concrete artifact and an empty registry. -/
theorem c4_save_load_round_trip_witness :
    (save_model "./models" noFaults (42 : Nat) {} "w4" "2024-01-01T00:00:00"
        (StorageState.mk (RegistryDoc.parsed []) [])).1 = .ok "w4" ∧
    load_model "w4" (save_model "./models" noFaults (42 : Nat) {} "w4"
        "2024-01-01T00:00:00" (StorageState.mk (RegistryDoc.parsed []) [])).2 =
      .ok 42 :=
  c4_save_load_round_trip "./models" 42 {} "w4" "2024-01-01T00:00:00" _
    (fun r hr => absurd hr (List.not_mem_nil r))

/-! ### C5 — uniqueness of returned ids -/

/-- A fault-free save always succeeds and hands back exactly its uuid draw,
so the ids collected by `saveSeq` are the draws of the calls, in order. -/
theorem saveSeq_ids {α : Type} (storage_dir : String)
    (cs : List (SaveCall α)) (s : StorageState α) :
    (saveSeq storage_dir cs s).1 = cs.map (fun c => c.model_id) := by
  induction cs generalizing s with
  | nil => rfl
  | cons c cs ih => exact congrArg (List.cons c.model_id) (ih _)

/-- C5: for every sequence of successful `save_model` calls against the same
registry, the returned `model_id` values are exactly the fresh `uuid.uuid4()`
draws, hence pairwise distinct whenever the draws are (the source relies on
the negligible collision probability of the 128-bit random identifiers). -/
theorem c5_save_ids_pairwise_distinct {α : Type} (storage_dir : String)
    (cs : List (SaveCall α)) (s : StorageState α)
    (h : (cs.map (fun c => c.model_id)).Pairwise (· ≠ ·)) :
    ((saveSeq storage_dir cs s).1).Pairwise (· ≠ ·) := by
  rw [saveSeq_ids]
  exact h

/-- C5 witness: two concrete saves with distinct draws produce distinct ids. -/
theorem c5_save_ids_pairwise_distinct_witness :
    ((saveSeq "./models"
        [SaveCall.mk () {} "u1" "2024-01-01T00:00:00",
         SaveCall.mk () {} "u2" "2024-01-02T00:00:00"]
        (StorageState.mk (RegistryDoc.parsed []) [])).1).Pairwise (· ≠ ·) :=
  c5_save_ids_pairwise_distinct "./models" _ _ (by decide)

/-! ### C8 — model_type filter -/

/-- C8 (amended): for every non-empty filter string, `list_models` returns
exactly the records whose `model_type` equals the filter under
case-insensitive comparison — every match is included and every non-match is
excluded. -/
theorem c8_nonempty_filter_case_insensitive {α : Type} (s : StorageState α)
    (fil : String) (hf : fil ≠ "") (r : ModelRecord) :
    r ∈ list_models (some fil) s ↔
      (r ∈ load_model_registry s.doc ∧ pyLower r.model_type = pyLower fil) := by
  have h0 : list_models (some fil) s =
      pySortDesc ((load_model_registry s.doc).filter
        (fun m => pyLower m.model_type == pyLower fil)) := by
    simp only [list_models]
    rw [if_pos hf]
  rw [h0]
  unfold pySortDesc
  rw [List.mem_insertionSort, List.mem_filter]
  simp

/-- C8 witness at a concrete registry and the filter `"linear regression"`. -/
theorem c8_nonempty_filter_case_insensitive_witness :
    (mkRec "m8" "2024-01-01T00:00:00" ∈
        list_models (some "linear regression")
          (StorageState.mk (RegistryDoc.parsed [mkRec "m8" "2024-01-01T00:00:00"])
            ([] : List (String × Option Unit)))) ↔
      (mkRec "m8" "2024-01-01T00:00:00" ∈
          load_model_registry (RegistryDoc.parsed [mkRec "m8" "2024-01-01T00:00:00"]) ∧
        pyLower (mkRec "m8" "2024-01-01T00:00:00").model_type =
          pyLower "linear regression") :=
  c8_nonempty_filter_case_insensitive _ "linear regression" (by decide) _

def st8 : StorageState Unit :=
  { doc := .parsed [mkRec "m8" "2024-01-01T00:00:00"], files := [] }

/-- C8 counterexample: the claim quantifies over every non-absent filter
string, but for the empty string Python's `if model_type:` truthiness check
skips the filter entirely: `list_models` with filter `""` returns a record
whose `model_type` (`"Linear Regression"`) does not match `""`
case-insensitively, instead of excluding it. -/
theorem c8_empty_filter_counterexample :
    mkRec "m8" "2024-01-01T00:00:00" ∈ list_models (some "") st8 ∧
    pyLower (mkRec "m8" "2024-01-01T00:00:00").model_type ≠ pyLower "" := by
  constructor
  · decide
  · decide

/-! ### C9 — success/error envelope of the computation functions -/

/-- Python values as they flow through `generate_sample_data`: the caller
passes an arbitrary JSON-like dictionary.  Python int and float are both
rendered as `pnum` (claims do not distinguish them). -/
inductive Py where
  | pnone
  | pnum (q : Rat)
  | pstr (s : String)
  | pbool (b : Bool)
  | plist (xs : List Py)
  | pdict (kvs : List (String × Py))

/-- `d.get(k, dflt)`: `AttributeError` when the receiver is not a dict. -/
def pyGetD (v : Py) (k : String) (dflt : Py) : Except String Py :=
  match v with
  | .pdict kvs => .ok ((kvs.lookup k).getD dflt)
  | _ => .error ("AttributeError: object has no attribute get (key " ++ k ++ ")")

/-- `d[k]` for a string key: `KeyError` when absent, `TypeError` when the
receiver is not a dict. -/
def pyItem (v : Py) (k : String) : Except String Py :=
  match v with
  | .pdict kvs =>
    match kvs.lookup k with
    | some x => .ok x
    | none => .error ("KeyError: " ++ k)
  | _ => .error "TypeError: value is not subscriptable by string"

/-- `l[i]` for an integer index. -/
def pyIdx (v : Py) (i : Nat) : Except String Py :=
  match v with
  | .plist xs =>
    match xs.get? i with
    | some x => .ok x
    | none => .error "IndexError: list index out of range"
  | _ => .error "TypeError: value is not subscriptable by index"

/-- Coercion to a number for arithmetic (`TypeError` otherwise; Python bool
is a number). -/
def pyToRat (v : Py) : Except String Rat :=
  match v with
  | .pnum q => .ok q
  | .pbool b => .ok (if b then 1 else 0)
  | _ => .error "TypeError: a number is required"

/-- The integer demanded by `range(n)` (`range` of a negative int is empty). -/
def pyRangeLen (v : Py) : Except String Nat :=
  match v with
  | .pnum q =>
    if q.den = 1 then .ok q.num.toNat
    else .error "TypeError: object cannot be interpreted as an integer"
  | .pbool b => .ok (if b then 1 else 0)
  | _ => .error "TypeError: object cannot be interpreted as an integer"

/-- Python truthiness. -/
def pyTruthy (v : Py) : Bool :=
  match v with
  | .pnone => false
  | .pnum q => q != 0
  | .pstr s => s != ""
  | .pbool b => b
  | .plist xs => !xs.isEmpty
  | .pdict kvs => !kvs.isEmpty

/-- `len(v)`. -/
def pyLen (v : Py) : Except String Nat :=
  match v with
  | .plist xs => .ok xs.length
  | .pdict kvs => .ok kvs.length
  | .pstr s => .ok s.length
  | _ => .error "TypeError: object has no len"

/-- Python `v == "k"` (equality of a non-string with a string is `False`). -/
def pyEqStr (v : Py) (k : String) : Bool :=
  match v with
  | .pstr s => s == k
  | _ => false

/-- Python `k in v` for dicts (key membership) and lists (element
membership); other receivers raise. -/
def pyContainsKey (v : Py) (k : String) : Except String Bool :=
  match v with
  | .pdict kvs => .ok (kvs.any (fun kv => kv.1 == k))
  | .plist xs => .ok (xs.any (fun x => pyEqStr x k))
  | _ => .error "TypeError: argument is not iterable"

/-- `str(v)` as interpolated into f-strings; containers abbreviated (their
rendering is immaterial to every claim). -/
def pyRepr (v : Py) : String :=
  match v with
  | .pnone => "None"
  | .pnum q => toString q
  | .pstr s => s
  | .pbool b => if b then "True" else "False"
  | .plist _ => "[...]"
  | .pdict _ => "\x7b...\x7d"

/-- Python `round(v, 3)` abstracted over rationals (round half up; the float
round-half-even behaviour is immaterial to every claim). -/
def round3 (q : Rat) : Rat := (((q * 1000 + 1/2).floor : Int) : Rat) / 1000

/-- The default `feature_ranges` value built by the generators. -/
def defaultRanges (fc : Nat) (lo hi : Rat) : Py :=
  .plist (List.replicate fc (.pdict [("min", .pnum lo), ("max", .pnum hi)]))

/-- `feature_ranges[j] if j < len(feature_ranges) else dict(min 0, max 1)`. -/
def rangeInfoAt (franges : Py) (j : Nat) : Except String Py := do
  let n ← pyLen franges
  if j < n then pyIdx franges j
  else pure (.pdict [("min", .pnum 0), ("max", .pnum 1)])

def rangeMin (rinfo : Py) : Except String Rat := pyItem rinfo "min" >>= pyToRat

def rangeMax (rinfo : Py) : Except String Rat := pyItem rinfo "max" >>= pyToRat

/-- `_generate_classification_samples`, with `random.uniform` abstracted by
the oracle `u`. -/
def gen_classification_samples (u : Rat → Rat → Rat) (fc ns : Nat)
    (training_stats : Py) : Except String (List (List Rat)) := do
  let franges ← pyGetD training_stats "feature_ranges" (defaultRanges fc 0 10)
  let strategies := ["low", "medium", "high", "mixed"]
  let firstPart ← (List.range (min ns strategies.length)).mapM (fun i => do
    let strategy := strategies.getD (i % strategies.length) "mixed"
    (List.range fc).mapM (fun j => do
      let rinfo ← rangeInfoAt franges j
      let lo ← rangeMin rinfo
      let hi ← rangeMax rinfo
      let frange := hi - lo
      let value :=
        if strategy == "low" then u lo (lo + frange * (3/10))
        else if strategy == "medium" then
          u (lo + frange * (3/10)) (lo + frange * (7/10))
        else if strategy == "high" then u (lo + frange * (7/10)) hi
        else u lo hi
      pure (round3 value)))
  let rest ← (List.range (ns - min ns strategies.length)).mapM (fun _ =>
    (List.range fc).mapM (fun j => do
      let rinfo ← rangeInfoAt franges j
      let lo ← rangeMin rinfo
      let hi ← rangeMax rinfo
      pure (round3 (u lo hi))))
  pure (firstPart ++ rest)

/-- The fallback value of the regression generator: uniform draw around the
range center, clamped to the original range. -/
def regressionFallbackValue (u : Rat → Rat → Rat) (lo hi mult : Rat) : Rat :=
  let frange := (hi - lo) * mult
  let center := (hi + lo) / 2
  let value := u (center - frange / 2) (center + frange / 2)
  max lo (min hi value)

/-- `_generate_regression_samples`, with `random.uniform` abstracted by `u`
and `random.gauss` by `g`. -/
def gen_regression_samples (u g : Rat → Rat → Rat) (fc ns : Nat)
    (training_stats : Py) : Except String (List (List Rat)) := do
  let franges ← pyGetD training_stats "feature_ranges" (defaultRanges fc 0 10)
  let fmeans ← pyGetD training_stats "feature_means" .pnone
  let fstds ← pyGetD training_stats "feature_stds" .pnone
  let scenarios : List (String × Rat) :=
    [("conservative", 4/5), ("typical", 1), ("extreme", 6/5)]
  let firstPart ← (List.range (min ns scenarios.length)).mapM (fun i => do
    let mult := (scenarios.getD (i % scenarios.length) ("typical", 1)).2
    (List.range fc).mapM (fun j => do
      let rinfo ← rangeInfoAt franges j
      let lo ← rangeMin rinfo
      let hi ← rangeMax rinfo
      if pyTruthy fmeans && pyTruthy fstds then do
        let mlen ← pyLen fmeans
        if j < mlen then do
          let mean ← pyIdx fmeans j >>= pyToRat
          let sd ← pyIdx fstds j >>= pyToRat
          let value := g mean (sd * mult)
          let maxRange := (hi - lo) * mult
          let center := (hi + lo) / 2
          pure (round3 (max (center - maxRange / 2)
            (min (center + maxRange / 2) value)))
        else pure (round3 (regressionFallbackValue u lo hi mult))
      else pure (round3 (regressionFallbackValue u lo hi mult))))
  let rest ← (List.range (ns - min ns scenarios.length)).mapM (fun _ =>
    (List.range fc).mapM (fun j => do
      let rinfo ← rangeInfoAt franges j
      let lo ← rangeMin rinfo
      let hi ← rangeMax rinfo
      pure (round3 (u lo hi))))
  pure (firstPart ++ rest)

/-- `_generate_description` (pure string building). -/
def gen_description (fc : Nat) (model_type : Py) (ns : Nat)
    (training_stats : Py) : String :=
  if pyTruthy training_stats then
    let base := "Generated " ++ toString ns ++ " intelligent " ++
      pyRepr model_type ++ " test samples with " ++ toString fc ++
      " features each based on training data statistics. "
    let base := base ++
      (if pyEqStr model_type "classification" then
        "Samples represent different class regions (low, medium, high feature values) to test classification boundaries."
      else
        "Samples include conservative, typical, and slightly extreme scenarios to test regression robustness.")
    if 4 < fc then
      base ++ " Feature ranges derived from " ++ toString fc ++
        "-dimensional training data."
    else base
  else
    "Generated " ++ toString ns ++ " fallback " ++ pyRepr model_type ++
      " test samples with " ++ toString fc ++ " features each. " ++
      "Samples use default value ranges since training statistics are not available."

/-- `_get_feature_ranges`. -/
def get_feature_ranges (training_stats : Py) (fc : Nat) : Except String Py := do
  let c ← pyContainsKey training_stats "feature_ranges"
  if c then do
    let v ← pyItem training_stats "feature_ranges"
    match v with
    | .plist xs => pure (.plist (xs.take fc))
    | .pstr str => pure (.pstr (String.mk (str.data.take fc)))
    | _ => .error "TypeError: value is not subscriptable by slice"
  else
    pure (.plist (List.replicate fc (.pdict [("min", .pnum 0), ("max", .pnum 1)])))

/-- The `sample_metadata` sub-dictionary of a successful generation. -/
structure GenMeta where
  feature_count : Nat
  model_type : Py
  sample_count : Nat
  generation_method : String

/-- The response dictionary shape of `generate_sample_data`. -/
structure GenResult where
  success : Bool
  error : Option String := none
  data : Option (List (List Rat)) := none
  description : Option String := none
  sample_metadata : Option GenMeta := none
  feature_ranges : Option Py := none

/-- Body of the `try` block of `generate_sample_data`, producing the fields
of the success dictionary; every failure mode is an exception in the
`Except` channel.  (`pyRangeLen` converts `feature_count` where the source
first evaluates `range(feature_count)`; the conversion site differs, the
exception behaviour does not.) -/
def gen_body (u g : Rat → Rat → Rat) (metadata : Py) (num_samples : Nat) :
    Except String (List (List Rat) × String × GenMeta × Py) := do
  let fcv ← pyGetD metadata "feature_count" (.pnum 4)
  let model_type ← pyGetD metadata "type" (.pstr "regression")
  let training_stats ← pyGetD metadata "training_stats" (.pdict [])
  let performanceMetrics ← pyGetD metadata "performance" (.pdict [])
  let fc ← pyRangeLen fcv
  let samples ←
    if pyEqStr model_type "classification" then
      gen_classification_samples u fc num_samples training_stats
    else
      gen_regression_samples u g fc num_samples training_stats
  let franges ← get_feature_ranges training_stats fc
  pure (samples, gen_description fc model_type num_samples training_stats,
    ⟨fc, model_type, num_samples,
      if pyTruthy training_stats then "intelligent" else "fallback"⟩,
    franges)

/-- `generate_sample_data`: the whole body runs inside `try`, and any raised
exception is converted to the `success: false` dictionary with an `error`
string — no exception escapes the function. -/
def generate_sample_data (u g : Rat → Rat → Rat) (metadata : Py)
    (num_samples : Nat) : GenResult :=
  match gen_body u g metadata num_samples with
  | .ok (samples, desc, m, fr) =>
    { success := true
      data := some samples
      description := some desc
      sample_metadata := some m
      feature_ranges := some fr }
  | .error e =>
    { success := false
      error := some ("Sample data generation failed: " ++ e) }

/-- The pickled `model_package` of `MLPredictor`: the regression model and
its fitted scaler, abstracted by the coefficient count and the evaluation
functions, plus the package metadata stored alongside. -/
structure ModelPackage where
  coefLen : Nat
  transform : List Rat → List Rat
  predictRow : List Rat → Rat
  feature_names : List String
  target_name : String
  stats_mean : Rat
  stats_std : Rat
  stats_min : Rat
  stats_max : Rat

/-- The response dictionary shape of `predict_with_saved_model`. -/
structure PredResult where
  success : Bool
  error : Option String := none
  model_id : Option String := none
  model_type : Option String := none
  predictions : Option (List Rat) := none
  prediction_intervals : Option (List (Rat × Rat)) := none
  input_data : Option (List (List Rat)) := none
  expected_features : Option (List String) := none
  created_at : Option String := none
  performance : Option (List (String × Rat)) := none

/-- `np.array(new_data).shape[1]`: raises IndexError for an empty list
(shape is one-dimensional) and ValueError for ragged rows. -/
def npWidth (new_data : List (List Rat)) : Except String Nat :=
  match new_data with
  | [] => .error "tuple index out of range"
  | r :: rs =>
    if rs.all (fun x => x.length == r.length) then .ok r.length
    else .error "setting an array element with a sequence"

/-- Cache lookup or `load_model`, mirroring the `self.loaded_models` cache of
`MLPredictor`: on a miss, a successful load inserts the package into the
cache; a failed load raises and leaves the cache untouched. -/
def loadOrCache (cache : List (String × ModelPackage))
    (s : StorageState ModelPackage) (model_id : String) :
    Except String (ModelPackage × List (String × ModelPackage)) :=
  match cache.lookup model_id with
  | some pkg => .ok (pkg, cache)
  | none =>
    match load_model model_id s with
    | .ok pkg => .ok (pkg, (model_id, pkg) :: cache)
    | .error e => .error e

/-- `MLPredictor.predict_with_saved_model`: metadata lookup with an explicit
not-found response, cache-or-load of the package, dimension check with an
explicit mismatch response, then predictions and 1.96-sigma intervals; every
exception inside the `try` is converted to `Prediction failed`, so nothing
escapes. -/
def predict_with_saved_model (cache : List (String × ModelPackage))
    (s : StorageState ModelPackage) (model_id : String)
    (new_data : List (List Rat)) :
    PredResult × List (String × ModelPackage) :=
  match get_model_metadata model_id s with
  | none =>
    ({ success := false
       error := some ("Model with ID " ++ model_id ++ " not found") }, cache)
  | some md =>
    match loadOrCache cache s model_id with
    | .error e =>
      ({ success := false, error := some ("Prediction failed: " ++ e) }, cache)
    | .ok (pkg, cache2) =>
      match npWidth new_data with
      | .error e =>
        ({ success := false, error := some ("Prediction failed: " ++ e) }, cache2)
      | .ok width =>
        if width = pkg.coefLen then
          let preds := new_data.map (fun row => pkg.predictRow (pkg.transform row))
          let se := pkg.stats_std * (1/10)
          let intervals := preds.map (fun p => (p - (49/25) * se, p + (49/25) * se))
          ({ success := true
             model_id := some model_id
             model_type := some md.model_type
             predictions := some preds
             prediction_intervals := some intervals
             input_data := some new_data
             created_at := some md.created_at
             performance := some md.performance }, cache2)
        else
          ({ success := false
             error := some ("Expected " ++ toString pkg.coefLen ++
               " features, got " ++ toString width)
             expected_features := some pkg.feature_names }, cache2)

/-- C9: the computation functions keep the request/response envelope: the
result always carries a `success` boolean (both functions are total — in the
embedding no exception channel remains in their result types), an `error`
string is present whenever `success` is false, and `error` is absent on
success.  Stated for `generate_sample_data` and
`predict_with_saved_model`. -/
theorem c9_success_error_envelope (u g : Rat → Rat → Rat) (metadata : Py)
    (ns : Nat) (cache : List (String × ModelPackage))
    (s : StorageState ModelPackage) (mid : String) (nd : List (List Rat)) :
    ((generate_sample_data u g metadata ns).success = false →
      ∃ e, (generate_sample_data u g metadata ns).error = some e) ∧
    ((generate_sample_data u g metadata ns).success = true →
      (generate_sample_data u g metadata ns).error = none) ∧
    ((predict_with_saved_model cache s mid nd).1.success = false →
      ∃ e, (predict_with_saved_model cache s mid nd).1.error = some e) ∧
    ((predict_with_saved_model cache s mid nd).1.success = true →
      (predict_with_saved_model cache s mid nd).1.error = none) := by
  have hgen : ((generate_sample_data u g metadata ns).success = false →
      ∃ e, (generate_sample_data u g metadata ns).error = some e) ∧
      ((generate_sample_data u g metadata ns).success = true →
        (generate_sample_data u g metadata ns).error = none) := by
    unfold generate_sample_data
    cases gen_body u g metadata ns with
    | ok v =>
      obtain ⟨samples, desc, m, fr⟩ := v
      exact ⟨fun h => by simp at h, fun _ => rfl⟩
    | error e => exact ⟨fun _ => ⟨_, rfl⟩, fun h => by simp at h⟩
  have hpred : ((predict_with_saved_model cache s mid nd).1.success = false →
      ∃ e, (predict_with_saved_model cache s mid nd).1.error = some e) ∧
      ((predict_with_saved_model cache s mid nd).1.success = true →
        (predict_with_saved_model cache s mid nd).1.error = none) := by
    unfold predict_with_saved_model
    cases get_model_metadata mid s with
    | none => exact ⟨fun _ => ⟨_, rfl⟩, fun h => by simp at h⟩
    | some md =>
      cases loadOrCache cache s mid with
      | error e => exact ⟨fun _ => ⟨_, rfl⟩, fun h => by simp at h⟩
      | ok v =>
        obtain ⟨pkg, cache2⟩ := v
        cases npWidth nd with
        | error e => exact ⟨fun _ => ⟨_, rfl⟩, fun h => by simp at h⟩
        | ok width =>
          dsimp only
          by_cases hw : width = pkg.coefLen
          · rw [if_pos hw]
            exact ⟨fun h => by simp at h, fun _ => rfl⟩
          · rw [if_neg hw]
            exact ⟨fun _ => ⟨_, rfl⟩, fun h => by simp at h⟩
  exact ⟨hgen.1, hgen.2, hpred.1, hpred.2⟩

/-- C9 witness: a malformed metadata value makes generation fail with the
envelope intact, and an unknown model id makes prediction fail with the
envelope intact. -/
theorem c9_success_error_envelope_witness :
    (∃ e, (generate_sample_data (fun _ _ => 0) (fun _ _ => 0) (.pnum 3) 3).error
        = some e) ∧
    (∃ e, (predict_with_saved_model [] (StorageState.mk (RegistryDoc.parsed []) [])
        "x" []).1.error = some e) :=
  ⟨(c9_success_error_envelope (fun _ _ => 0) (fun _ _ => 0) (.pnum 3) 3 []
      (StorageState.mk (RegistryDoc.parsed []) []) "x" []).1 rfl,
   (c9_success_error_envelope (fun _ _ => 0) (fun _ _ => 0) (.pnum 3) 3 []
      (StorageState.mk (RegistryDoc.parsed []) []) "x" []).2.2.1 rfl⟩
